import Mathlib

/-!
Verification development for the Animated-Wallpaper-Generation repository.

The repository is a deployment-configuration layer: an entry point (`main.py`)
selects one of five ComfyUI workload builders from an environment variable,
and each builder composes a fixed pipeline of image-construction steps
(package installs, comfy-node installs, file copy-in, model downloads with a
cache volume, output-volume creation).  This file gives a shallow embedding of
that code: container images are lists of image-construction steps, the body of
the model-download build function is a list of actions (hub fetches and shell
commands), and the external model-hub client is an oracle (`Hub`) supplying
the paths it returns.  All definitions are transcribed from the Python source.
-/

namespace AWG

/-! ## Shell commands and download actions (src/comfy_utils.py) -/

/-- Structured form of the shell command strings issued through
`subprocess.run` by the code: `ln -s target linkPath`,
`wget -q -O outPath url`, and `mkdir -p dir`. -/
inductive ShellCmd where
  | ln (target linkPath : String)
  | wget (url outPath : String)
  | mkdirp (dir : String)
  deriving DecidableEq

/-- The exact command string the source passes to `subprocess.run`. -/
def ShellCmd.render : ShellCmd → String
  | ShellCmd.ln t p => "ln -s " ++ t ++ " " ++ p
  | ShellCmd.wget u o => "wget -q -O " ++ o ++ " " ++ u
  | ShellCmd.mkdirp d => "mkdir -p " ++ d

/-- One action performed by the model-download code: a console print, a call
into the model-hub client (`hf_hub_download` / `snapshot_download`), or a
`subprocess.run` of a shell command with its `check` flag. -/
inductive Action where
  | consolePrint (msg : String)
  | hfFetch (repo filename cacheDir : String) (token : Option String)
  | snapFetch (repo : String) (allow_patterns ignore_patterns : List String) (cacheDir : String)
  | subprocessRun (cmd : ShellCmd) (check : Bool)
  deriving DecidableEq

/-- Oracle for the external huggingface_hub client: the paths returned by
`hf_hub_download` and `snapshot_download` for given arguments. -/
structure Hub where
  hf_hub_download : String → String → String → Option String → String
  snapshot_download : String → List String → List String → String → String

/-- Embedding of `comfy_utils.download_hf_file(repo, filename, cache_dir,
save_dir, save_filename=None, token=None)`: prints, fetches the file into the
cache, then runs `ln -s path save_dir/save_filename` with `check=True`, where
`path` is the path returned by the fetch and `save_filename` defaults to
`filename`. -/
def download_hf_file (hub : Hub) (repo filename cache_dir save_dir : String)
    (save_filename : Option String) (token : Option String) : List Action :=
  let path := hub.hf_hub_download repo filename cache_dir token
  let sf := match save_filename with
    | none => filename
    | some s => s
  [Action.consolePrint ("Downloading " ++ repo ++ "/" ++ filename),
   Action.hfFetch repo filename cache_dir token,
   Action.subprocessRun (ShellCmd.ln path (save_dir ++ "/" ++ sf)) true]

/-- Embedding of `comfy_utils.download_hf_snapshot(repo, dir_name, cache_dir,
save_dir, allow_patterns=[], ignore_patterns=[])`: prints, fetches the
filtered snapshot into the cache, then runs `ln -s path save_dir/dir_name`
with `check=True`, where `path` is the snapshot path returned by the fetch. -/
def download_hf_snapshot (hub : Hub) (repo dir_name cache_dir save_dir : String)
    (allow_patterns ignore_patterns : List String) : List Action :=
  let path := hub.snapshot_download repo allow_patterns ignore_patterns cache_dir
  [Action.consolePrint ("Downloading " ++ repo),
   Action.snapFetch repo allow_patterns ignore_patterns cache_dir,
   Action.subprocessRun (ShellCmd.ln path (save_dir ++ "/" ++ dir_name)) true]

/-- Embedding of `comfy_utils.download_wget_file(url, filename, cache_dir,
save_dir)`: prints, runs `wget -q -O cache_dir/filename url` with
`check=True`, then runs `ln -s cache_dir/filename save_dir/filename` with
`check=True`. -/
def download_wget_file (url filename cache_dir save_dir : String) : List Action :=
  let path := cache_dir ++ "/" ++ filename
  [Action.consolePrint ("Downloading " ++ url),
   Action.subprocessRun (ShellCmd.wget url path) true,
   Action.subprocessRun (ShellCmd.ln path (save_dir ++ "/" ++ filename)) true]

/-! ## Builders: configuration (the `__init__` methods) -/

/-- The five workload builder subclasses registered in `main.py`. -/
inductive Workload where
  | aceStep
  | flux
  | krita
  | qwen
  | wan
  deriving DecidableEq, Fintype

/-- The configuration fields set in the builders' `__init__` methods
(`self.gpu`, `self._app_name`, `self._output_vol_name`). -/
structure BuilderConfig where
  gpu : String
  app_name : String
  output_vol_name : String
  deriving DecidableEq

/-- `ComfyAppBuilder.__init__` (the base class). -/
def comfyAppBuilder_init : BuilderConfig :=
  { gpu := "T4", app_name := "comfyui", output_vol_name := "comfyui-output" }

/-- Each subclass `__init__` calls `super().__init__()` then overwrites
`self.gpu`, `self._app_name` and `self._output_vol_name`. -/
def builder_init : Workload → BuilderConfig
  | Workload.aceStep =>
    { comfyAppBuilder_init with
      gpu := "L40S", app_name := "ace-step-comfyui", output_vol_name := "ace-step-comfyui-output" }
  | Workload.flux =>
    { comfyAppBuilder_init with
      gpu := "T4", app_name := "flux-comfyui", output_vol_name := "flux-comfyui-output" }
  | Workload.krita =>
    { comfyAppBuilder_init with
      gpu := "T4", app_name := "krita-comfyui", output_vol_name := "krita-comfyui-output" }
  | Workload.qwen =>
    { comfyAppBuilder_init with
      gpu := "A100-80GB", app_name := "qwen-comfyui", output_vol_name := "qwen-comfyui-output" }
  | Workload.wan =>
    { comfyAppBuilder_init with
      gpu := "L40S", app_name := "wan-comfyui", output_vol_name := "wan-comfyui-output" }

/-- `self._comfy_dir` (same for every builder). -/
def comfy_dir : String := "/root/comfy/ComfyUI"

/-- `self._comfy_models_dir`. -/
def comfy_models_dir : String := comfy_dir ++ "/models"

/-- `self._comfy_output_dir`. -/
def comfy_output_dir : String := comfy_dir ++ "/output"

/-- `self._cache_dir`. -/
def cache_dir : String := "/cache"

/-! ## Container images as step lists -/

/-- A named Modal volume obtained through `modal.Volume.from_name`. -/
structure Volume where
  vol_name : String
  create_if_missing : Bool
  deriving DecidableEq

/-- One image-construction step of the `modal.Image` builder API as used by
the source: each method call derives a new image value from the previous one,
so an image is the list of steps applied so far. -/
inductive ImgStep where
  | debianSlim (python_version : String)
  | aptInstall (pkg : String)
  | pipInstall (pkg : String)
  | runCommands (cmds : List String)
  | addLocalPythonSource (module_name : String)
  | addLocalFile (src dst : String)
  | envVar (key value : String)
  | runFunction (body : List Action) (volumes : List (String × Volume)) (force_build : Bool)
  deriving DecidableEq

/-! ## Pipeline stages (ComfyAppBuilder and subclass overrides) -/

/-- `ComfyAppBuilder._build_image`: debian_slim base, git and wget, web and
comfy-cli pip packages, huggingface_hub, then the comfy install command. -/
def comfyAppBuilder_build_image : List ImgStep :=
  [ImgStep.debianSlim "3.11",
   ImgStep.aptInstall "git",
   ImgStep.aptInstall "wget",
   ImgStep.pipInstall "fastapi[standard]==0.115.4",
   ImgStep.pipInstall "comfy-cli",
   ImgStep.pipInstall "huggingface_hub[hf_transfer]",
   ImgStep.runCommands ["comfy --skip-prompt install --fast-deps --nvidia"]]

/-- `_build_image` per builder: ACE-Step and Krita override it, calling
`super()._build_image()` first and then appending their extra installs; the
other three inherit the base implementation. -/
def build_image : Workload → List ImgStep
  | Workload.aceStep =>
    comfyAppBuilder_build_image ++
      [ImgStep.aptInstall "sox",
       ImgStep.aptInstall "ffmpeg",
       ImgStep.aptInstall "libportaudio2",
       ImgStep.pipInstall "sounddevice",
       ImgStep.pipInstall "easydict",
       ImgStep.pipInstall "torch-complex"]
  | Workload.flux => comfyAppBuilder_build_image
  | Workload.krita =>
    comfyAppBuilder_build_image ++
      [ImgStep.aptInstall "libgl1",
       ImgStep.aptInstall "libglib2.0-0"]
  | Workload.qwen => comfyAppBuilder_build_image
  | Workload.wan => comfyAppBuilder_build_image

/-- `ComfyAppBuilder._install_comfy_nodes`: returns the image unchanged. -/
def comfyAppBuilder_install_comfy_nodes (image : List ImgStep) : List ImgStep := image

/-- `_install_comfy_nodes` per builder: every override calls
`super()._install_comfy_nodes(image)` first, then appends one
`run_commands` step listing its comfy-node install commands. -/
def install_comfy_nodes (w : Workload) (image : List ImgStep) : List ImgStep :=
  match w with
  | Workload.aceStep =>
    comfyAppBuilder_install_comfy_nodes image ++
      [ImgStep.runCommands
        ["comfy node install --fast-deps ace-step",
         "comfy node install --fast-deps audiotools",
         "comfy node install --fast-deps ComfyUI-Qwen3"]]
  | Workload.flux => comfyAppBuilder_install_comfy_nodes image
  | Workload.krita =>
    comfyAppBuilder_install_comfy_nodes image ++
      [ImgStep.runCommands
        ["comfy node install --fast-deps comfyui_controlnet_aux",
         "comfy node install --fast-deps comfyui_ipadapter_plus",
         "comfy node install --fast-deps comfyui-inpaint-nodes",
         "comfy node install --fast-deps comfyui-tooling-nodes"]]
  | Workload.qwen =>
    comfyAppBuilder_install_comfy_nodes image ++
      [ImgStep.runCommands
        ["comfy node install --fast-deps ComfyUI-Qwen-VL",
         "comfy node install --fast-deps comfyui-custom-scripts"]]
  | Workload.wan =>
    comfyAppBuilder_install_comfy_nodes image ++
      [ImgStep.runCommands
        ["comfy node install --fast-deps ComfyUI-GGUF",
         "comfy node install --fast-deps ComfyUI-WanStartEndFramesNative"]]

/-- `ComfyAppBuilder._post_install_dep`: returns the image unchanged. -/
def comfyAppBuilder_post_install_dep (image : List ImgStep) : List ImgStep := image

/-- `_post_install_dep` per builder: only ACE-Step overrides it, calling
`super()._post_install_dep(image)` then pip-installing `numpy==2.2`. -/
def post_install_dep (w : Workload) (image : List ImgStep) : List ImgStep :=
  match w with
  | Workload.aceStep =>
    comfyAppBuilder_post_install_dep image ++ [ImgStep.pipInstall "numpy==2.2"]
  | Workload.flux => comfyAppBuilder_post_install_dep image
  | Workload.krita => comfyAppBuilder_post_install_dep image
  | Workload.qwen => comfyAppBuilder_post_install_dep image
  | Workload.wan => comfyAppBuilder_post_install_dep image

/-- `ComfyAppBuilder._copy_files`: adds the `comfy_utils` local python source
and the `tokens.json` credential file (no subclass overrides it). -/
def copy_files (image : List ImgStep) : List ImgStep :=
  image ++
    [ImgStep.addLocalPythonSource "comfy_utils",
     ImgStep.addLocalFile "tokens.json" "/root/tokens.json"]

/-! ## Per-workload download manifests (the `_hf_download` methods) -/

/-- Python's `str.zfill`: left-pads with zeros to the given width. -/
def zfill (k : Nat) (s : String) : String :=
  if s.length ≥ k then s else String.mk (List.replicate (k - s.length) '0') ++ s

/-- `ComfyAppBuilder._hf_download`: a `pass` body, no actions. -/
def comfyAppBuilder_hf_download (_hub : Hub) (_tokens : String → String) : List Action := []

/-- `ACEStepComfyAppBuilder._ace_step_download`: mkdir the TTS model
directory, then snapshot-download the ACE-Step repository into it. -/
def ace_step_download (hub : Hub) : List Action :=
  let save_dir := comfy_models_dir ++ "/TTS"
  [Action.subprocessRun (ShellCmd.mkdirp save_dir) true] ++
    download_hf_snapshot hub "ACE-Step/ACE-Step-v1-3.5B" "ACE-Step-v1-3.5B"
      cache_dir save_dir ["*.json", "*.safetensors"] []

/-- `ACEStepComfyAppBuilder._qwen_download`: mkdir the Qwen3-14B directory,
download its 8 model shards in a loop, then its 7 config/tokenizer files. -/
def qwen3_download (hub : Hub) : List Action :=
  let save_dir := comfy_models_dir ++ "/Qwen/Qwen/Qwen3-14B"
  let repo := "Qwen/Qwen3-14B"
  [Action.subprocessRun (ShellCmd.mkdirp save_dir) true] ++
    (List.range 8).flatMap (fun i =>
      download_hf_file hub repo
        ("model-000" ++ zfill 2 (toString (i + 1)) ++ "-of-00008.safetensors")
        cache_dir save_dir none none) ++
    download_hf_file hub repo "config.json" cache_dir save_dir none none ++
    download_hf_file hub repo "tokenizer.json" cache_dir save_dir none none ++
    download_hf_file hub repo "vocab.json" cache_dir save_dir none none ++
    download_hf_file hub repo "merges.txt" cache_dir save_dir none none ++
    download_hf_file hub repo "generation_config.json" cache_dir save_dir none none ++
    download_hf_file hub repo "tokenizer_config.json" cache_dir save_dir none none ++
    download_hf_file hub repo "model.safetensors.index.json" cache_dir save_dir none none

/-- `FluxComfyAppBuilder._hf_download` after the `super()` call: two text
encoders, the VAE (renamed to `ae.safetensors`), and the FLUX.1-schnell unet
downloaded with the HuggingFace token. -/
def flux_downloads (hub : Hub) (tokens : String → String) : List Action :=
  let repo := "comfyanonymous/flux_text_encoders"
  let save_dir := comfy_models_dir ++ "/text_encoders"
  download_hf_file hub repo "t5xxl_fp8_e4m3fn_scaled.safetensors" cache_dir save_dir none none ++
    download_hf_file hub repo "clip_l.safetensors" cache_dir save_dir none none ++
    download_hf_file hub "Comfy-Org/Lumina_Image_2.0_Repackaged"
      "split_files/vae/ae.safetensors" cache_dir (comfy_models_dir ++ "/vae")
      (some "ae.safetensors") none ++
    download_hf_file hub "black-forest-labs/FLUX.1-schnell"
      "flux1-schnell.safetensors" cache_dir (comfy_models_dir ++ "/unet")
      none (some (tokens "HF_TOKEN"))

/-- `KritaComfyAppBuilder._illustrious_download`. -/
def illustrious_download (hub : Hub) : List Action :=
  download_hf_file hub "OnomaAIResearch/Illustrious-XL-v2.0"
    "Illustrious-XL-v2.0.safetensors" cache_dir (comfy_models_dir ++ "/checkpoints") none none

/-- `KritaComfyAppBuilder._clip_vision_download`. -/
def clip_vision_download (hub : Hub) : List Action :=
  download_hf_file hub "h94/IP-Adapter" "models/image_encoder/model.safetensors"
    cache_dir (comfy_models_dir ++ "/clip_vision") (some "clip-vision_vit-h.safetensors") none

/-- `KritaComfyAppBuilder._upscale_download`: one wget model plus five
HuggingFace upscalers, all linked under `upscale_models`. -/
def upscale_download (hub : Hub) : List Action :=
  let upscale_models_dir := comfy_models_dir ++ "/upscale_models"
  download_wget_file
      "https://objectstorage.us-phoenix-1.oraclecloud.com/n/ax6ygfvpvzka/b/open-modeldb-files/o/4x-NMKD-YandereNeo.pth"
      "4x-NMKD-YandereNeo.pth" cache_dir upscale_models_dir ++
    download_hf_file hub "Acly/Omni-SR" "OmniSR_X2_DIV2K.safetensors" cache_dir upscale_models_dir none none ++
    download_hf_file hub "Acly/Omni-SR" "OmniSR_X3_DIV2K.safetensors" cache_dir upscale_models_dir none none ++
    download_hf_file hub "Acly/Omni-SR" "OmniSR_X4_DIV2K.safetensors" cache_dir upscale_models_dir none none ++
    download_hf_file hub "Acly/hat" "HAT_SRx4_ImageNet-pretrain.pth" cache_dir upscale_models_dir none none ++
    download_hf_file hub "Acly/hat" "Real_HAT_GAN_sharper.pth" cache_dir upscale_models_dir none none

/-- `KritaComfyAppBuilder._inpaint_download`: mkdir the inpaint directory and
wget the AnimagineXL inpainting checkpoint using the Civitai token. -/
def inpaint_download (tokens : String → String) : List Action :=
  let save_dir := comfy_models_dir ++ "/inpaint"
  [Action.subprocessRun (ShellCmd.mkdirp save_dir) true] ++
    download_wget_file
      ("https://civitai.com/api/download/models/480117?type=Model&format=SafeTensor&size=pruned&fp=fp16&token=" ++
        tokens "CIVITAI_TOKEN")
      "animaginexl_v31Inpainting.safetensors" cache_dir save_dir

/-- `KritaComfyAppBuilder._controlnet_download`: eight controlnets linked
under `controlnet`, six of them renamed through `save_filename`. -/
def controlnet_download (hub : Hub) : List Action :=
  let controlnet_dir := comfy_models_dir ++ "/controlnet"
  download_hf_file hub "Eugeoter/noob-sdxl-controlnet-scribble_pidinet"
      "diffusion_pytorch_model.fp16.safetensors" cache_dir controlnet_dir
      (some "noob-sdxl-controlnet-scribble_pidinet.fp16.safetensors") none ++
    download_hf_file hub "Eugeoter/noob-sdxl-controlnet-lineart_anime"
      "diffusion_pytorch_model.fp16.safetensors" cache_dir controlnet_dir
      (some "noob-sdxl-controlnet-lineart_anime.fp16.safetensors") none ++
    download_hf_file hub "Eugeoter/noob-sdxl-controlnet-softedge_hed"
      "diffusion_pytorch_model.fp16.safetensors" cache_dir controlnet_dir
      (some "noob-sdxl-controlnet-softedge_hed.fp16.safetensors") none ++
    download_hf_file hub "Eugeoter/noob-sdxl-controlnet-canny"
      "noob_sdxl_controlnet_canny.fp16.safetensors" cache_dir controlnet_dir none none ++
    download_hf_file hub "Eugeoter/noob-sdxl-controlnet-depth_midas-v1-1"
      "diffusion_pytorch_model.fp16.safetensors" cache_dir controlnet_dir
      (some "noob-sdxl-controlnet-depth_midas-v1-1.fp16.safetensors") none ++
    download_hf_file hub "Eugeoter/noob-sdxl-controlnet-normal"
      "diffusion_pytorch_model.fp16.safetensors" cache_dir controlnet_dir
      (some "noob-sdxl-controlnet-normal.fp16.safetensors") none ++
    download_hf_file hub "windsingai/Illustrious-XL-openpose-test"
      "openpose_s6000.safetensors" cache_dir controlnet_dir none none ++
    download_hf_file hub "Eugeoter/noob-sdxl-controlnet-tile"
      "diffusion_pytorch_model.fp16.safetensors" cache_dir controlnet_dir
      (some "noob-sdxl-controlnet-tile.fp16.safetensors") none

/-- `KritaComfyAppBuilder._ipadapter_download`: mkdir `ipadapter`, a second
IP-Adapter image encoder linked under `clip_vision` as the vit-g variant, and
the Noob IP-Adapter weights linked under `ipadapter`. -/
def ipadapter_download (hub : Hub) : List Action :=
  let save_dir := comfy_models_dir ++ "/ipadapter"
  [Action.subprocessRun (ShellCmd.mkdirp save_dir) true] ++
    download_hf_file hub "h94/IP-Adapter" "sdxl_models/image_encoder/model.safetensors"
      cache_dir (comfy_models_dir ++ "/clip_vision") (some "clip-vision_vit-g.safetensors") none ++
    download_hf_file hub "kataragi/Noob_ipadapter" "ip_adapter_Noobtest_800000.bin"
      cache_dir save_dir none none

/-- `WanComfyAppBuilder._hf_download` after the `super()` call: the UMT5 text
encoder, the Wan 2.1 VAE, the CLIP vision encoder, and a wget of the live
wallpaper GGUF checkpoint from Civitai into `diffusion_models`. -/
def wan_downloads (hub : Hub) (tokens : String → String) : List Action :=
  let repo := "Comfy-Org/Wan_2.1_ComfyUI_repackaged"
  download_hf_file hub repo "split_files/text_encoders/umt5_xxl_fp8_e4m3fn_scaled.safetensors"
      cache_dir (comfy_models_dir ++ "/text_encoders")
      (some "umt5_xxl_fp8_e4m3fn_scaled.safetensors") none ++
    download_hf_file hub repo "split_files/vae/wan_2.1_vae.safetensors"
      cache_dir (comfy_models_dir ++ "/vae") (some "wan_2.1_vae.safetensors") none ++
    download_hf_file hub repo "split_files/clip_vision/clip_vision_h.safetensors"
      cache_dir (comfy_models_dir ++ "/clip_vision") (some "clip_vision_h.safetensors") none ++
    download_wget_file
      ("https://civitai.com/api/download/models/1873761?type=Model&format=GGUF&size=full&fp=fp32&token=" ++
        tokens "CIVITAI_TOKEN")
      "liveWallpaperFast_i2v14B720P.gguf" cache_dir (comfy_models_dir ++ "/diffusion_models")

/-- `QwenComfyAppBuilder._hf_download` after the `super()` call: mkdir the
Qwen2.5-VL directory, download its 18 model shards in a loop, then its 9
config/tokenizer files. -/
def qwen_vl_downloads (hub : Hub) : List Action :=
  let save_dir := comfy_models_dir ++ "/Qwen/Qwen-VL/Qwen2.5-VL-32B-Instruct"
  let repo := "Qwen/Qwen2.5-VL-32B-Instruct"
  [Action.subprocessRun (ShellCmd.mkdirp save_dir) true] ++
    (List.range 18).flatMap (fun i =>
      download_hf_file hub repo
        ("model-000" ++ zfill 2 (toString (i + 1)) ++ "-of-00018.safetensors")
        cache_dir save_dir none none) ++
    download_hf_file hub repo "config.json" cache_dir save_dir none none ++
    download_hf_file hub repo "tokenizer.json" cache_dir save_dir none none ++
    download_hf_file hub repo "vocab.json" cache_dir save_dir none none ++
    download_hf_file hub repo "merges.txt" cache_dir save_dir none none ++
    download_hf_file hub repo "chat_template.json" cache_dir save_dir none none ++
    download_hf_file hub repo "preprocessor_config.json" cache_dir save_dir none none ++
    download_hf_file hub repo "generation_config.json" cache_dir save_dir none none ++
    download_hf_file hub repo "tokenizer_config.json" cache_dir save_dir none none ++
    download_hf_file hub repo "model.safetensors.index.json" cache_dir save_dir none none

/-- `_hf_download` per builder: every override calls
`super()._hf_download(tokens=tokens)` first, then performs its own
downloads. -/
def hf_download (w : Workload) (hub : Hub) (tokens : String → String) : List Action :=
  match w with
  | Workload.aceStep =>
    comfyAppBuilder_hf_download hub tokens ++ ace_step_download hub ++ qwen3_download hub
  | Workload.flux =>
    comfyAppBuilder_hf_download hub tokens ++ flux_downloads hub tokens
  | Workload.krita =>
    comfyAppBuilder_hf_download hub tokens ++ illustrious_download hub ++
      clip_vision_download hub ++ upscale_download hub ++ inpaint_download tokens ++
      controlnet_download hub ++ ipadapter_download hub
  | Workload.qwen =>
    comfyAppBuilder_hf_download hub tokens ++ qwen_vl_downloads hub
  | Workload.wan =>
    comfyAppBuilder_hf_download hub tokens ++ wan_downloads hub tokens

/-! ## The pipeline (ComfyAppBuilder private/public methods) -/

/-- `ComfyAppBuilder._download_models`: creates the shared `hf-hub-cache`
volume, sets `HF_HUB_ENABLE_HF_TRANSFER`, and wraps the builder's
`_hf_download` as a `run_function` build step mounting the cache volume, with
`force_build=redownload_models`.  Returns the new image and the cache
volume. -/
def download_models (w : Workload) (hub : Hub) (tokens : String → String)
    (image : List ImgStep) (redownload_models : Bool) : List ImgStep × Volume :=
  let vol : Volume := { vol_name := "hf-hub-cache", create_if_missing := true }
  let image := image ++ [ImgStep.envVar "HF_HUB_ENABLE_HF_TRANSFER" "1"]
  let image := image ++
    [ImgStep.runFunction (hf_download w hub tokens) [(cache_dir, vol)] redownload_models]
  (image, vol)

/-- `ComfyAppBuilder._create_output_vol`: creates the builder's named output
volume and deletes the ComfyUI output directory in the image. -/
def create_output_vol (w : Workload) (image : List ImgStep) : List ImgStep × Volume :=
  let output_vol : Volume :=
    { vol_name := (builder_init w).output_vol_name, create_if_missing := true }
  (image ++ [ImgStep.runCommands ["rm -rf " ++ comfy_output_dir]], output_vol)

/-- The image and volume mapping stored on the builder instance after
`_build_image_and_volumes` (`self._image`, `self._volumes`). -/
structure BuildResult where
  image : List ImgStep
  volumes : List (String × Volume)
  deriving DecidableEq

/-- `ComfyAppBuilder._build_image_and_volumes`: runs the six pipeline stages
in sequence, each consuming the previous stage's image, then stores the final
image and the volume mapping `{cache_dir: cache_vol, comfy_output_dir:
output_vol}`. -/
def build_image_and_volumes (w : Workload) (hub : Hub) (tokens : String → String)
    (redownload_models : Bool) : BuildResult :=
  let image := build_image w
  let image := install_comfy_nodes w image
  let image := post_install_dep w image
  let image := copy_files image
  let pr := download_models w hub tokens image redownload_models
  let qr := create_output_vol w pr.1
  { image := qr.1, volumes := [(cache_dir, pr.2), (comfy_output_dir, qr.2)] }

/-- The `modal.App` value constructed by `build_app`. -/
structure ModalApp where
  name : String
  image : List ImgStep
  deriving DecidableEq

/-- `ComfyAppBuilder.build_app(redownload_models=False)`: runs
`_build_image_and_volumes` and wraps the resulting image in an app named
`self._app_name`.  The build result is returned alongside the app because the
Python code stores it on the instance (`self._image`, `self._volumes`). -/
def build_app (w : Workload) (hub : Hub) (tokens : String → String)
    (redownload_models : Bool) : ModalApp × BuildResult :=
  let br := build_image_and_volumes w hub tokens redownload_models
  ({ name := (builder_init w).app_name, image := br.image }, br)

/-! ## Entry point (src/main.py) -/

/-- Python `str.lower` restricted to the ASCII range the registry keys and
inputs use. -/
def pyLower (s : String) : String := String.mk (s.data.map Char.toLower)

/-- The characters Python `str.strip()` removes by default. -/
def pyIsSpace (c : Char) : Bool :=
  c = ' ' || c = '\t' || c = '\n' || c = '\r' || c = '\x0b' || c = '\x0c'

/-- Python `str.strip()`: removes leading and trailing whitespace. -/
def pyStrip (s : String) : String :=
  String.mk (((s.data.dropWhile pyIsSpace).reverse.dropWhile pyIsSpace).reverse)

/-- The key under which each builder class is registered in `APP_REGISTRY`. -/
def registry_key : Workload → String
  | Workload.aceStep => "ace-step"
  | Workload.flux => "flux"
  | Workload.krita => "krita"
  | Workload.qwen => "qwen"
  | Workload.wan => "wan"

/-- `APP_REGISTRY` from `main.py`: the dict mapping workload keys to builder
classes, in source order. -/
def APP_REGISTRY : List (String × Workload) :=
  [("ace-step", Workload.aceStep),
   ("flux", Workload.flux),
   ("krita", Workload.krita),
   ("qwen", Workload.qwen),
   ("wan", Workload.wan)]

/-- Dict lookup `APP_REGISTRY[key]`: `some` builder class, or `none` for the
`KeyError` case. -/
def registry_lookup (key : String) : Option Workload :=
  (APP_REGISTRY.find? (fun p => p.1 == key)).map Prod.snd

/-- The two fatal configuration errors of the entry point: the `ValueError`
raised when `APP` is unset, and the `KeyError` from the registry lookup. -/
inductive MainError where
  | appNotSet
  | unknownApp (key : String)
  deriving DecidableEq

/-- What a successful run of `main.py` has produced by the time the web
function is registered: the built app, the build result stored on the builder,
and the `gpu`/`volumes` arguments passed to `app.function`. -/
structure BuiltMain where
  app : ModalApp
  build : BuildResult
  gpu : String
  volumes : List (String × Volume)
  deriving DecidableEq

/-- The success branch of `main.py`: instantiate the builder, call
`build_app()` (no argument, so `redownload_models` keeps its `False` default;
the module-level `REDOWNLOAD_MODELS = False` constant is never passed), and
read off the `gpu` and `get_volumes()` arguments of the web function. -/
def main_success (w : Workload) (hub : Hub) (tokens : String → String) : BuiltMain :=
  let r := build_app w hub tokens false
  { app := r.1, build := r.2, gpu := (builder_init w).gpu, volumes := r.2.volumes }

/-- The module body of `main.py`: read `APP` from the environment (raising
`ValueError` when unset), normalize it with `.lower().strip()`, look it up in
`APP_REGISTRY` (raising `KeyError` when absent), and only then instantiate the
selected builder and build the app.  An error result carries no built image:
no image-build step has executed. -/
def pyMain (env : String → Option String) (hub : Hub) (tokens : String → String) :
    Except MainError BuiltMain :=
  match env "APP" with
  | none => Except.error MainError.appNotSet
  | some app_name =>
    let key := pyStrip (pyLower app_name)
    match registry_lookup key with
    | none => Except.error (MainError.unknownApp key)
    | some w => Except.ok (main_success w hub tokens)

/-! ## Observation functions over action lists -/

/-- Whether an action is the creation of a symbolic link (`ln -s`). -/
def isLn (a : Action) : Bool :=
  match a with
  | Action.subprocessRun (ShellCmd.ln _ _) _ => true
  | _ => false

/-- The number of link-creation commands an action list issues. -/
def lnCount (acts : List Action) : Nat := (acts.filter isLn).length

/-- The path at which a link-creation action places its symbolic link. -/
def lnDest (a : Action) : Option String :=
  match a with
  | Action.subprocessRun (ShellCmd.ln _ p) _ => some p
  | _ => none

/-- The link locations an action list creates, in order. -/
def lnDests (acts : List Action) : List String := acts.filterMap lnDest

/-- The `(target, linkPath)` pair of a link-creation action. -/
def lnPair (a : Action) : Option (String × String) :=
  match a with
  | Action.subprocessRun (ShellCmd.ln t p) _ => some (t, p)
  | _ => none

/-- The `(target, linkPath)` pairs of the links an action list creates. -/
def lnPairs (acts : List Action) : List (String × String) := acts.filterMap lnPair

/-- Identity of a file placed in the cache by a fetch: a hub file is
identified by its repository and in-repo path, a snapshot by its repository,
and a wget download by the cache path it is written to. -/
inductive Source where
  | hf (repo filename : String)
  | snap (repo : String)
  | web (cachePath : String)
  deriving DecidableEq

/-- The cached file an action fetches, if it is a fetch. -/
def fetchSource (a : Action) : Option Source :=
  match a with
  | Action.hfFetch repo filename _ _ => some (Source.hf repo filename)
  | Action.snapFetch repo _ _ _ => some (Source.snap repo)
  | Action.subprocessRun (ShellCmd.wget _ out) _ => some (Source.web out)
  | _ => none

/-- The cached files an action list fetches, in order. -/
def sources (acts : List Action) : List Source := acts.filterMap fetchSource

/-- The number of fetch commands an action list issues. -/
def fetchCount (acts : List Action) : Nat := (sources acts).length

/-- The `(repo, filename, cache_dir)` arguments of a hub single-file fetch. -/
def hfFetchArgs (a : Action) : Option (String × String × String) :=
  match a with
  | Action.hfFetch repo filename cacheDir _ => some (repo, filename, cacheDir)
  | _ => none

/-- The hub single-file fetches an action list performs. -/
def hfFetches (acts : List Action) : List (String × String × String) :=
  acts.filterMap hfFetchArgs

/-- Whether every `subprocess.run` in the action list passes `check=True`. -/
def allChecked (acts : List Action) : Bool :=
  acts.all (fun a =>
    match a with
    | Action.subprocessRun _ check => check
    | _ => true)

/-- Whether an action aborts the build under a failure oracle `fails`: a
print cannot fail; a hub fetch raises on failure; a `subprocess.run` raises on
a non-zero exit exactly when `check=True`. -/
def actionAborts (fails : Action → Bool) (a : Action) : Bool :=
  match a with
  | Action.consolePrint _ => false
  | Action.hfFetch _ _ _ _ => fails a
  | Action.snapFetch _ _ _ _ => fails a
  | Action.subprocessRun _ check => check && fails a

/-- Sequential execution of an action list under a failure oracle: the first
aborting action raises (is returned as the fatal error) and nothing after it
runs; there is no retry. -/
def execActions (fails : Action → Bool) : List Action → Except Action Unit
  | [] => Except.ok ()
  | a :: rest =>
    if actionAborts fails a then Except.error a else execActions fails rest

/-- The `force_build` flags of the `run_function` steps of an image, in
order. -/
def runFunctionFlags (image : List ImgStep) : List Bool :=
  image.filterMap (fun s =>
    match s with
    | ImgStep.runFunction _ _ b => some b
    | _ => none)

/-- Whether the character list `p` is an initial segment of `s`. -/
def listStarts : List Char → List Char → Bool
  | [], _ => true
  | _ :: _, [] => false
  | p :: ps, c :: cs => p == c && listStarts ps cs

/-- Whether the string `s` starts with the string `pre`. -/
def strStarts (pre s : String) : Bool := listStarts pre.data s.data

/-! ## Spec-side stage model (section 4.2 of the spec)

The spec describes the pipeline as a strictly ordered list of stages.  These
definitions follow the spec's words; the refinement theorem for the ordering
claim compares the code's `build_image_and_volumes` against folding the stage
list in the spec's order. -/

/-- The stage names of the spec's pipeline description. -/
inductive StageLabel where
  | baseImage
  | pluginInstall
  | postInstallFixups
  | fileCopyIn
  | modelDownload
  | outputVolCreate
  deriving DecidableEq

/-- The state threaded through the pipeline: the image so far and the volumes
created so far. -/
structure StageState where
  image : List ImgStep
  vols : List (String × Volume)
  deriving DecidableEq

/-- One pipeline stage as a state transformer, each built from the
corresponding method of the code. -/
def runStage (w : Workload) (hub : Hub) (tokens : String → String)
    (redownload_models : Bool) (st : StageState) (l : StageLabel) : StageState :=
  match l with
  | StageLabel.baseImage => { st with image := build_image w }
  | StageLabel.pluginInstall => { st with image := install_comfy_nodes w st.image }
  | StageLabel.postInstallFixups => { st with image := post_install_dep w st.image }
  | StageLabel.fileCopyIn => { st with image := copy_files st.image }
  | StageLabel.modelDownload =>
    let p := download_models w hub tokens st.image redownload_models
    { image := p.1, vols := st.vols ++ [(cache_dir, p.2)] }
  | StageLabel.outputVolCreate =>
    let q := create_output_vol w st.image
    { image := q.1, vols := st.vols ++ [(comfy_output_dir, q.2)] }

/-- Modelled from the spec: the stage order `base image → plugin install →
post-install fixups → file copy-in → model download (+cache volume) → output
volume creation` (system/package installs happen inside the base-image
stage). -/
def specStageOrder : List StageLabel :=
  [StageLabel.baseImage, StageLabel.pluginInstall, StageLabel.postInstallFixups,
   StageLabel.fileCopyIn, StageLabel.modelDownload, StageLabel.outputVolCreate]

/-! ## Concrete instances used by witnesses -/

/-- A concrete hub oracle for evaluating the model on closed inputs. -/
def hub0 : Hub :=
  { hf_hub_download := fun repo filename _ _ => "/cache/hub/" ++ repo ++ "/" ++ filename,
    snapshot_download := fun repo _ _ _ => "/cache/hub/" ++ repo }

/-- A concrete token mapping for evaluating the model on closed inputs. -/
def tokens0 : String → String := fun _ => "tok"

/-- A concrete environment with `APP=wan`. -/
def env_wan : String → Option String := fun _ => some "wan"

/-- A trivial default `BuiltMain` used only to extract the success value of a
concrete entry-point run. -/
def builtMain0 : BuiltMain :=
  { app := { name := "", image := [] },
    build := { image := [], volumes := [] },
    gpu := "",
    volumes := [] }

/-- The success value of the concrete entry-point run with `APP=wan`. -/
def s_wan : BuiltMain := (pyMain env_wan hub0 tokens0).toOption.getD builtMain0

/-! ## Helper lemmas -/

set_option maxHeartbeats 2000000 in
/-- The cached-file sources of a workload's download manifest do not depend
on the hub oracle or the token mapping. -/
theorem sources_hub_independent (w : Workload) (hub : Hub) (tokens : String → String) :
    sources (hf_download w hub tokens) = sources (hf_download w hub0 tokens0) := by
  cases w <;> rfl

/-- Sequential execution succeeds exactly when no action in the list aborts;
the first aborting action is raised as a fatal error. -/
theorem execActions_ok_iff (fails : Action → Bool) (acts : List Action) :
    execActions fails acts = Except.ok () ↔ ∀ a ∈ acts, actionAborts fails a = false := by
  induction acts with
  | nil => simp [execActions]
  | cons a rest ih =>
    simp only [execActions]
    by_cases h : actionAborts fails a
    · simp [h]
    · simp only [Bool.not_eq_true] at h
      simp [h, ih]

/-- Looking a builder's registry key up in `APP_REGISTRY` returns that
builder. -/
theorem registry_lookup_key (w : Workload) : registry_lookup (registry_key w) = some w := by
  cases w <;> rfl

/-- The built image of every workload contains exactly one `run_function`
build step, and its `force_build` flag is the `redownload_models` argument
passed to the pipeline. -/
theorem runFunctionFlags_build (w : Workload) (hub : Hub) (tokens : String → String)
    (redownload_models : Bool) :
    runFunctionFlags (build_image_and_volumes w hub tokens redownload_models).image =
      [redownload_models] := by
  cases w <;> rfl

/-! ## Claims -/

/-- C1 counterexample: the claim that no two distinct workload builders share
a `gpu` value is false on the code: the flux and krita builders are distinct
workloads and both declare `self.gpu = "T4"` in their `__init__` methods
(ace-step and wan likewise share `"L40S"`). -/
theorem C1_gpu_not_unique :
    (¬ ∀ w₁ w₂ : Workload, w₁ ≠ w₂ →
      (builder_init w₁).gpu ≠ (builder_init w₂).gpu) ∧
    Workload.flux ≠ Workload.krita ∧
    (builder_init Workload.flux).gpu = (builder_init Workload.krita).gpu ∧
    (builder_init Workload.flux).gpu = "T4" := by
  decide

/-- C1 (amended): for every pair of distinct workload keys in the entry
point's registry, the corresponding builders declare distinct application
names and distinct output-volume names; the declared GPU tiers, however, are
not unique (flux/krita share T4 and ace-step/wan share L40S). -/
theorem C1_app_and_volume_names_unique :
    ∀ w₁ w₂ : Workload, w₁ ≠ w₂ →
      (builder_init w₁).app_name ≠ (builder_init w₂).app_name ∧
      (builder_init w₁).output_vol_name ≠ (builder_init w₂).output_vol_name := by
  decide

/-- C1 witness: the amended uniqueness instantiated at the flux and krita
builders. -/
theorem C1_app_and_volume_names_unique_witness :
    (builder_init Workload.flux).app_name ≠ (builder_init Workload.krita).app_name ∧
    (builder_init Workload.flux).output_vol_name ≠ (builder_init Workload.krita).output_vol_name :=
  C1_app_and_volume_names_unique Workload.flux Workload.krita (by decide)

/-- C2: if the `APP` environment variable is unset the entry point raises the
`ValueError` immediately, and if it is set to a key whose normalized form is
not in `APP_REGISTRY` the lookup raises immediately; in both cases the result
is a fatal error carrying no built app, so no image-build step and no
network-exposing registration has executed, and nothing retries. -/
theorem C2_config_errors_fatal :
    ∀ (env : String → Option String) (hub : Hub) (tokens : String → String),
      (env "APP" = none → pyMain env hub tokens = Except.error MainError.appNotSet) ∧
      (∀ s, env "APP" = some s →
        registry_lookup (pyStrip (pyLower s)) = none →
        pyMain env hub tokens = Except.error (MainError.unknownApp (pyStrip (pyLower s)))) := by
  intro env hub tokens
  constructor
  · intro h
    simp [pyMain, h]
  · intro s hs hn
    simp [pyMain, hs, hn]

/-- C2 witness: the two configuration errors evaluated on a concrete
environment with `APP` unset and with `APP=sdxl`. -/
theorem C2_config_errors_fatal_witness :
    pyMain (fun _ => none) hub0 tokens0 = Except.error MainError.appNotSet ∧
    pyMain (fun _ => some "sdxl") hub0 tokens0 = Except.error (MainError.unknownApp "sdxl") :=
  ⟨(C2_config_errors_fatal (fun _ => none) hub0 tokens0).1 rfl,
   (C2_config_errors_fatal (fun _ => some "sdxl") hub0 tokens0).2 "sdxl" rfl rfl⟩

/-- C3: for every builder, one invocation of `_build_image_and_volumes` is
exactly the fold of the six pipeline stages, in the spec's fixed order, each
stage consuming the previous stage's image value: base image construction,
plugin (comfy node) installation, post-install dependency fixups, local file
copy-in, model download with cache-volume creation, output-volume creation;
the stage list has no repetition, so no stage is skipped, repeated or
reordered. -/
theorem C3_pipeline_stage_order :
    ∀ (w : Workload) (hub : Hub) (tokens : String → String) (redownload_models : Bool),
      (build_image_and_volumes w hub tokens redownload_models).image =
        (specStageOrder.foldl (runStage w hub tokens redownload_models)
          { image := [], vols := [] }).image ∧
      (build_image_and_volumes w hub tokens redownload_models).volumes =
        (specStageOrder.foldl (runStage w hub tokens redownload_models)
          { image := [], vols := [] }).vols ∧
      specStageOrder =
        [StageLabel.baseImage, StageLabel.pluginInstall, StageLabel.postInstallFixups,
         StageLabel.fileCopyIn, StageLabel.modelDownload, StageLabel.outputVolCreate] ∧
      specStageOrder.Nodup := by
  intro w hub tokens redownload_models
  exact ⟨rfl, rfl, rfl, by decide⟩

/-- C4: every subclass override of a pipeline stage (`_build_image`,
`_install_comfy_nodes`, `_post_install_dep`, `_hf_download`) first invokes the
base class's implementation and then appends its own steps, so the base
class's output is a prefix of the subclass's output on the same input. -/
theorem C4_overrides_extend_base :
    ∀ (w : Workload) (image : List ImgStep) (hub : Hub) (tokens : String → String),
      (∃ t, build_image w = comfyAppBuilder_build_image ++ t) ∧
      (∃ t, install_comfy_nodes w image = comfyAppBuilder_install_comfy_nodes image ++ t) ∧
      (∃ t, post_install_dep w image = comfyAppBuilder_post_install_dep image ++ t) ∧
      (∃ t, hf_download w hub tokens = comfyAppBuilder_hf_download hub tokens ++ t) := by
  intro w image hub tokens
  cases w
  case aceStep => exact ⟨⟨_, rfl⟩, ⟨_, rfl⟩, ⟨_, rfl⟩, ⟨_, rfl⟩⟩
  case flux =>
    exact ⟨⟨[], (List.append_nil _).symm⟩, ⟨[], (List.append_nil _).symm⟩,
      ⟨[], (List.append_nil _).symm⟩, ⟨_, rfl⟩⟩
  case krita =>
    exact ⟨⟨_, rfl⟩, ⟨_, rfl⟩, ⟨[], (List.append_nil _).symm⟩, ⟨_, rfl⟩⟩
  case qwen =>
    exact ⟨⟨[], (List.append_nil _).symm⟩, ⟨_, rfl⟩, ⟨[], (List.append_nil _).symm⟩, ⟨_, rfl⟩⟩
  case wan =>
    exact ⟨⟨[], (List.append_nil _).symm⟩, ⟨_, rfl⟩, ⟨[], (List.append_nil _).symm⟩, ⟨_, rfl⟩⟩

set_option maxHeartbeats 4000000 in
/-- C5: each invocation of the three download helpers issues exactly one
link-creation command and exactly one fetch, and in every workload's download
manifest the number of links equals the number of fetches while the fetched
cache sources are pairwise distinct — so every cached file receives exactly
one symbolic link and no file is linked twice. -/
theorem C5_one_link_per_cached_file :
    (∀ (hub : Hub) (repo filename cache save : String) (sf token : Option String),
      lnCount (download_hf_file hub repo filename cache save sf token) = 1 ∧
      fetchCount (download_hf_file hub repo filename cache save sf token) = 1) ∧
    (∀ (hub : Hub) (repo dir_name cache save : String) (ap ip : List String),
      lnCount (download_hf_snapshot hub repo dir_name cache save ap ip) = 1 ∧
      fetchCount (download_hf_snapshot hub repo dir_name cache save ap ip) = 1) ∧
    (∀ url filename cache save,
      lnCount (download_wget_file url filename cache save) = 1 ∧
      fetchCount (download_wget_file url filename cache save) = 1) ∧
    (∀ (w : Workload) (hub : Hub) (tokens : String → String),
      lnCount (hf_download w hub tokens) = fetchCount (hf_download w hub tokens) ∧
      (sources (hf_download w hub tokens)).Nodup) := by
  refine ⟨?_, ?_, ?_, ?_⟩
  · intro hub repo filename cache save sf token
    exact ⟨rfl, rfl⟩
  · intro hub repo dir_name cache save ap ip
    exact ⟨rfl, rfl⟩
  · intro url filename cache save
    exact ⟨rfl, rfl⟩
  · intro w hub tokens
    refine ⟨by cases w <;> rfl, ?_⟩
    rw [sources_hub_independent w hub tokens]
    cases w <;> decide

/-- C6: `download_hf_file` fetches `(repo, filename)` into `cache_dir` and
creates exactly one symbolic link, located at `save_dir/save_filename` when
`save_filename` is provided and at `save_dir/filename` when it is `None`, in
both cases targeting the path returned by the fetch into the cache. -/
theorem C6_link_location_and_target :
    ∀ (hub : Hub) (repo filename cache_dir save_dir : String) (token : Option String)
      (s : String),
      lnPairs (download_hf_file hub repo filename cache_dir save_dir (some s) token) =
        [(hub.hf_hub_download repo filename cache_dir token, save_dir ++ "/" ++ s)] ∧
      lnPairs (download_hf_file hub repo filename cache_dir save_dir none token) =
        [(hub.hf_hub_download repo filename cache_dir token, save_dir ++ "/" ++ filename)] ∧
      hfFetches (download_hf_file hub repo filename cache_dir save_dir (some s) token) =
        [(repo, filename, cache_dir)] ∧
      hfFetches (download_hf_file hub repo filename cache_dir save_dir none token) =
        [(repo, filename, cache_dir)] := by
  intro hub repo filename cache_dir save_dir token s
  exact ⟨rfl, rfl, rfl, rfl⟩

/-- C7: each download helper issues its fetch and its link exactly once with
no retry loop, every `subprocess.run` it issues passes `check=True` (in
`download_wget_file` both the wget and the link; in the two hub helpers the
link), and execution of a helper's actions succeeds exactly when no action
fails — any failing checked command is raised as a fatal error that aborts
the sequence. -/
theorem C7_no_retry_failures_fatal :
    (∀ (hub : Hub) (repo filename cache save : String) (sf token : Option String),
      allChecked (download_hf_file hub repo filename cache save sf token) = true ∧
      lnCount (download_hf_file hub repo filename cache save sf token) = 1 ∧
      fetchCount (download_hf_file hub repo filename cache save sf token) = 1 ∧
      (∀ fails, execActions fails (download_hf_file hub repo filename cache save sf token) =
          Except.ok () ↔
        ∀ a ∈ download_hf_file hub repo filename cache save sf token,
          actionAborts fails a = false)) ∧
    (∀ (hub : Hub) (repo dir_name cache save : String) (ap ip : List String),
      allChecked (download_hf_snapshot hub repo dir_name cache save ap ip) = true ∧
      lnCount (download_hf_snapshot hub repo dir_name cache save ap ip) = 1 ∧
      fetchCount (download_hf_snapshot hub repo dir_name cache save ap ip) = 1 ∧
      (∀ fails, execActions fails (download_hf_snapshot hub repo dir_name cache save ap ip) =
          Except.ok () ↔
        ∀ a ∈ download_hf_snapshot hub repo dir_name cache save ap ip,
          actionAborts fails a = false)) ∧
    (∀ url filename cache save,
      allChecked (download_wget_file url filename cache save) = true ∧
      lnCount (download_wget_file url filename cache save) = 1 ∧
      fetchCount (download_wget_file url filename cache save) = 1 ∧
      (∀ fails, execActions fails (download_wget_file url filename cache save) =
          Except.ok () ↔
        ∀ a ∈ download_wget_file url filename cache save,
          actionAborts fails a = false)) := by
  refine ⟨?_, ?_, ?_⟩
  · intro hub repo filename cache save sf token
    exact ⟨rfl, rfl, rfl, fun fails => execActions_ok_iff fails _⟩
  · intro hub repo dir_name cache save ap ip
    exact ⟨rfl, rfl, rfl, fun fails => execActions_ok_iff fails _⟩
  · intro url filename cache save
    exact ⟨rfl, rfl, rfl, fun fails => execActions_ok_iff fails _⟩

/-- C7 witness: on a concrete wget download, execution succeeds when nothing
fails and aborts with an error when the commands exit non-zero. -/
theorem C7_no_retry_failures_fatal_witness :
    execActions (fun _ => false) (download_wget_file "https://x" "f.bin" "/cache" "/save") =
      Except.ok () ∧
    execActions (fun _ => true) (download_wget_file "https://x" "f.bin" "/cache" "/save") ≠
      Except.ok () := by
  constructor
  · exact ((C7_no_retry_failures_fatal.2.2 "https://x" "f.bin" "/cache" "/save").2.2.2
      (fun _ => false)).mpr (by decide)
  · intro hok
    have h := ((C7_no_retry_failures_fatal.2.2 "https://x" "f.bin" "/cache" "/save").2.2.2
      (fun _ => true)).mp hok
    have hmem : Action.subprocessRun
        (ShellCmd.wget "https://x" ("/cache" ++ "/" ++ "f.bin")) true ∈
        download_wget_file "https://x" "f.bin" "/cache" "/save" := by decide
    exact absurd (h _ hmem) (by decide)

/-- C8: for every builder, the built image contains exactly one
`run_function` model-download step and its `force_build` flag equals the
`redownload_models` argument given to the pipeline (True forces the rebuild,
the False default does not); and every successful entry-point run calls
`build_app()` with no argument, so its image's download step is never
force-rebuilt. -/
theorem C8_force_redownload_flag :
    (∀ (w : Workload) (hub : Hub) (tokens : String → String) (redownload_models : Bool),
      runFunctionFlags (build_image_and_volumes w hub tokens redownload_models).image =
        [redownload_models]) ∧
    (∀ (env : String → Option String) (hub : Hub) (tokens : String → String) (b : BuiltMain),
      pyMain env hub tokens = Except.ok b →
      runFunctionFlags b.build.image = [false]) := by
  constructor
  · exact runFunctionFlags_build
  · intro env hub tokens b h
    simp only [pyMain] at h
    split at h
    · exact absurd h (by simp)
    · split at h
      · exact absurd h (by simp)
      · rename_i w hreg
        have hb : main_success w hub tokens = b := by
          injection h
        subst hb
        exact runFunctionFlags_build w hub tokens false

/-- C8 witness: the flag evaluated on a concrete forced build of the wan
workload and on the concrete entry-point run with `APP=wan`. -/
theorem C8_force_redownload_flag_witness :
    runFunctionFlags (build_image_and_volumes Workload.wan hub0 tokens0 true).image = [true] ∧
    runFunctionFlags s_wan.build.image = [false] :=
  ⟨C8_force_redownload_flag.1 Workload.wan hub0 tokens0 true,
   C8_force_redownload_flag.2 env_wan hub0 tokens0 s_wan rfl⟩

/-- C9: the wan workload's model-download stage creates exactly these four
links, with exactly one under the `diffusion_models` subdirectory of the
model root and exactly one under the `text_encoders` subdirectory, and its
manifest declares exactly four remote sources (one fetch per link). -/
theorem C9_wan_link_layout :
    ∀ (hub : Hub) (tokens : String → String),
      lnDests (hf_download Workload.wan hub tokens) =
        ["/root/comfy/ComfyUI/models/text_encoders/umt5_xxl_fp8_e4m3fn_scaled.safetensors",
         "/root/comfy/ComfyUI/models/vae/wan_2.1_vae.safetensors",
         "/root/comfy/ComfyUI/models/clip_vision/clip_vision_h.safetensors",
         "/root/comfy/ComfyUI/models/diffusion_models/liveWallpaperFast_i2v14B720P.gguf"] ∧
      ((lnDests (hf_download Workload.wan hub tokens)).filter
        (strStarts (comfy_models_dir ++ "/diffusion_models/"))).length = 1 ∧
      ((lnDests (hf_download Workload.wan hub tokens)).filter
        (strStarts (comfy_models_dir ++ "/text_encoders/"))).length = 1 ∧
      fetchCount (hf_download Workload.wan hub tokens) = 4 ∧
      lnCount (hf_download Workload.wan hub tokens) = 4 := by
  intro hub tokens
  exact ⟨rfl, rfl, rfl, rfl, rfl⟩

/-- C10: the entry point normalizes the `APP` value with `.lower().strip()`
before the registry lookup, so any value whose lowercased, trimmed form is a
registry key (for example "FLUX " or " Wan") selects and builds that
workload, while a value whose normalized form is not a registry key raises
the lookup error. -/
theorem C10_selector_normalization :
    (∀ (env : String → Option String) (hub : Hub) (tokens : String → String)
      (s : String) (w : Workload),
      env "APP" = some s → pyStrip (pyLower s) = registry_key w →
      pyMain env hub tokens = Except.ok (main_success w hub tokens)) ∧
    (∀ (env : String → Option String) (hub : Hub) (tokens : String → String) (s : String),
      env "APP" = some s → registry_lookup (pyStrip (pyLower s)) = none →
      pyMain env hub tokens = Except.error (MainError.unknownApp (pyStrip (pyLower s)))) ∧
    pyStrip (pyLower "FLUX ") = registry_key Workload.flux ∧
    pyStrip (pyLower " Wan") = registry_key Workload.wan := by
  refine ⟨?_, ?_, rfl, rfl⟩
  · intro env hub tokens s w hs hnorm
    simp [pyMain, hs, hnorm, registry_lookup_key]
  · intro env hub tokens s hs hn
    simp [pyMain, hs, hn]

/-- C10 witness: selection evaluated on the concrete values "FLUX " and
" Wan", both of which normalize to registry keys and build the corresponding
workload. -/
theorem C10_selector_normalization_witness :
    pyMain (fun _ => some "FLUX ") hub0 tokens0 =
      Except.ok (main_success Workload.flux hub0 tokens0) ∧
    pyMain (fun _ => some " Wan") hub0 tokens0 =
      Except.ok (main_success Workload.wan hub0 tokens0) :=
  ⟨C10_selector_normalization.1 (fun _ => some "FLUX ") hub0 tokens0 "FLUX " Workload.flux rfl rfl,
   C10_selector_normalization.1 (fun _ => some " Wan") hub0 tokens0 " Wan" Workload.wan rfl rfl⟩

end AWG
